import Mathlib

/-!
Verification of the Clinical-Trial-Patient-Match-Co-Pilot validation and
guardrail layer, as a shallow embedding in Lean.

The embedding follows the TypeScript source:
  * `src/types/index.ts` — the data model (PatientProfile, MatchResult,
    MockTrial, trial/status enums);
  * `src/ai/execute.ts` (current Groq version) — `extractPatient`,
    `assessTrial` (with the guardrail application), `generateTrials`;
  * `src/ai/execute.ts` (legacy OpenAI version) — the legacy
    `generateTrials` with its fallback-on-invalid-batch path, and
    `getFallbackTrials`;
  * `src/data/clinicalTrials.ts` — `getTrialsForPatient` and its helpers;
  * `src/app/api/match/route.ts` — the sort/rank step of the POST handler;
  * `src/components/MainDashboard.tsx` — `deriveStatus`.

`src/ai/validation.ts` (sanitizers, validators, `applyMedicalGuardrails`)
is not present in the repository snapshot: only its callers and
documentation are.  Those functions are modelled from the specification
and are marked `Modelled from the spec:` in their doc comments.

External effects are made explicit: the outcome of a model call is an
`Except String (Option α)` argument (`.error` = the call threw, e.g. a
timeout; `.ok none` = unparseable output even after the retry;
`.ok (some v)` = parsed value), console logging becomes an explicit list
of diagnostic strings, the random shuffle of the trial database becomes a
function argument, and the static trial JSON becomes a list argument.
-/

namespace ClinMatch

/-! ## String helpers

JavaScript's `toLowerCase` / `includes` / `startsWith` on the ASCII
strings used by this repository, modelled on `List Char`. -/

/-- Lower-case a string as a character list (ASCII-faithful model of
JavaScript `toLowerCase`). -/
def lc (s : String) : List Char := s.toList.map Char.toLower

/-- `hasPrefixL pat l` is true iff `pat` is a prefix of `l`
(JavaScript `startsWith` on exploded strings). -/
def hasPrefixL : List Char → List Char → Bool
  | [], _ => true
  | _ :: _, [] => false
  | p :: ps, c :: cs => p == c && hasPrefixL ps cs

/-- `containsL pat l` is true iff `pat` occurs contiguously inside `l`
(JavaScript `String.prototype.includes` on exploded strings). -/
def containsL (pat : List Char) : List Char → Bool
  | [] => hasPrefixL pat []
  | c :: cs => hasPrefixL pat (c :: cs) || containsL pat cs

/-- `strIncludes s pat`: JavaScript `s.includes(pat)`. -/
def strIncludes (s pat : String) : Bool := containsL pat.toList s.toList

/-- `lcIncludes s pat`: JavaScript `s.toLowerCase().includes(pat.toLowerCase())`. -/
def lcIncludes (s pat : String) : Bool := containsL (lc pat) (lc s)

/-- `lcEq s t`: case-insensitive string equality. -/
def lcEq (s t : String) : Bool := lc s == lc t

/-- JavaScript `toLowerCase` as a whole-string function (built from the
character list so that it reduces inside the kernel). -/
def toLowerStr (s : String) : String := String.mk (s.toList.map Char.toLower)

/-- Strip leading and trailing whitespace from a character list. -/
def trimL (l : List Char) : List Char :=
  ((l.dropWhile Char.isWhitespace).reverse.dropWhile Char.isWhitespace).reverse

/-- JavaScript `trim` (kernel-reducible model of `String.trim`). -/
def trimStr (s : String) : String := String.mk (trimL s.toList)

theorem hasPrefixL_append (pat rest : List Char) : hasPrefixL pat (pat ++ rest) = true := by
  induction pat with
  | nil => rfl
  | cons p ps ih => simp [hasPrefixL, ih]

theorem containsL_nil_left (l : List Char) : containsL [] l = true := by
  cases l <;> simp [containsL, hasPrefixL]

theorem containsL_of_append (pat pre post : List Char) :
    containsL pat (pre ++ pat ++ post) = true := by
  induction pre with
  | nil =>
      cases pat with
      | nil => simpa using containsL_nil_left post
      | cons p ps =>
          simp only [List.nil_append, containsL, Bool.or_eq_true]
          exact Or.inl (hasPrefixL_append (p :: ps) post)
  | cons c cs ih =>
      have h : (c :: cs) ++ pat ++ post = c :: (cs ++ pat ++ post) := by simp
      rw [h]
      simp only [containsL, Bool.or_eq_true]
      exact Or.inr ih

/-- JavaScript `s.includes(pat)` holds whenever `s = pre ++ pat ++ post`. -/
theorem strIncludes_of_eq_append (s pat pre post : String)
    (h : s.toList = pre.toList ++ pat.toList ++ post.toList) :
    strIncludes s pat = true := by
  unfold strIncludes
  rw [h]
  exact containsL_of_append _ _ _

/-! ## Data model (from `src/types/index.ts`) -/

/-- `PatientProfile.gender` enum from the source types. -/
inductive Gender
  | male
  | female
  | other
  | unknown
deriving DecidableEq, Repr

/-- Structured patient record from `src/types/index.ts`.
`Record<string, string>` fields become association lists. -/
structure PatientProfile where
  age : Int
  gender : Gender
  conditions : List String
  medications : List String
  allergies : List String
  biomarkers : List (String × String)
  stage : Option String
  priorTreatments : List String
  performanceStatus : Option String
  labValues : List (String × String)
deriving DecidableEq, Repr

/-- `MatchResult.confidenceLevel` enum from the source types. -/
inductive ConfidenceLevel
  | high
  | medium
  | low
deriving DecidableEq, Repr

/-- Output of assessing one patient against one trial
(`MatchResult` in `src/types/index.ts`). -/
structure MatchResult where
  matchScore : Int
  confidenceLevel : ConfidenceLevel
  inclusionMatches : List String
  exclusionFlags : List String
  uncertainFactors : List String
  explanation : String
  questionsToAsk : List String
deriving DecidableEq, Repr

/-- `MockTrial.matchType` enum from the legacy source types. -/
inductive MatchType
  | perfect
  | excluded
  | uncertain
deriving DecidableEq, Repr

/-- Trial record.  The source type evolved: the legacy `MockTrial` carries
`matchType`/`matchScore` (used by `getFallbackTrials` and the trial
validator), the current one carries `cancerType` (used by the
trial-database filter).  The embedding carries the union of the fields. -/
structure MockTrial where
  nctId : String
  title : String
  phase : String
  briefSummary : String
  inclusionCriteria : List String
  exclusionCriteria : List String
  matchType : MatchType
  matchScore : Int
  cancerType : String
deriving DecidableEq, Repr

/-- Output of any validator (`ValidationResult`). -/
structure ValidationResult where
  isValid : Bool
  errors : List String
  warnings : List String
deriving DecidableEq, Repr

/-! ## Grammar helpers -/

/-- The fixed NCT identifier grammar `NCT` + 8 ASCII digits. -/
def validNctId (s : String) : Bool :=
  hasPrefixL "NCT".toList s.toList
    && (s.toList.drop 3).length == 8
    && (s.toList.drop 3).all Char.isDigit

/-- All strings matching the constrained stage grammar
`Stage (I|II|III|IV)[A-C]?`. -/
def validStageStrings : List String :=
  (["I", "II", "III", "IV"].map (fun r =>
    ["", "A", "B", "C"].map (fun sub => "Stage " ++ r ++ sub))).flatten

/-- Stage-grammar membership check. -/
def validStage (s : String) : Bool := validStageStrings.contains s

/-- Extract `n` from a canonical `"ECOG n"` performance-status string. -/
def ecogNum (s : String) : Option Nat :=
  if hasPrefixL "ECOG ".toList s.toList then (s.drop 5).toNat? else none

/-! ## Profile sanitization (spec-modelled)

`src/ai/validation.ts` is absent from the repository snapshot; only its
callers (`src/ai/execute.ts`) and its documentation (README,
`docs/validation-guide.md`) are present.  The definitions below are
therefore modelled from the spec, §4.1. -/

/-- Modelled from the spec: age clamping of the missing
`sanitizePatientProfile` — "clamp to [0,120]". -/
def clampAge (a : Int) : Int := max 0 (min 120 a)

/-- Modelled from the spec: stage normalization of the missing
`sanitizePatientProfile` — strip whitespace, normalize the literal word
"stage" to capitalized "Stage", uppercase the Roman-numeral portion and
any trailing sub-stage letter (`"stage iiia"` becomes `"Stage IIIA"`);
unrecognized stages are preserved, not discarded. -/
def normalizeStageStr (s : String) : String :=
  let t := trimStr s
  if hasPrefixL (lc "stage") (lc t) then
    "Stage " ++ trimStr (String.mk ((t.toList.drop 5).map Char.toUpper))
  else t

/-- Modelled from the spec: performance-status normalization of the
missing `sanitizePatientProfile` — accept bare-number input ("1") or
prefixed input ("ECOG 1") and produce the canonical "ECOG n" form;
anything else is preserved for the validator to flag. -/
def normalizePerfStatus (s : String) : String :=
  match (trimStr s).toNat? with
  | some n => "ECOG " ++ toString n
  | none => trimStr s

/-- Modelled from the spec: biomarker-key normalization of the missing
`sanitizePatientProfile` — uppercase alphanumeric, punctuation and
whitespace stripped, so "her2-neu" and "HER2" collapse. -/
def normBiomarkerKey (k : String) : String :=
  String.mk ((k.toList.filter Char.isAlphanum).map Char.toUpper)

/-- Modelled from the spec: the missing `sanitizePatientProfile`
(§4.1 Profile Normalizer).  The live call site passes the original free
text as a second argument; the spec describes the normalizer as a
function of the raw profile only, so that argument is unused here. -/
def sanitizePatientProfile (p : PatientProfile) (_freeText : String) : PatientProfile :=
  { p with
    age := clampAge p.age
    stage := p.stage.map normalizeStageStr
    performanceStatus := p.performanceStatus.map normalizePerfStatus
    biomarkers := p.biomarkers.map (fun kv => (normBiomarkerKey kv.1, kv.2)) }

/-! ## Profile validation (spec-modelled, §4.2) -/

/-- Modelled from the spec: a condition string carries a triple-negative
designation when it contains the keyword "triple negative" or "TNBC"
(case-insensitive). -/
def isTNBCCondition (c : String) : Bool :=
  lcIncludes c "triple negative" || lcIncludes c "TNBC"

/-- Modelled from the spec: a biomarker key is "recorded as positive"
when an entry with that (case-insensitively equal) key has a value
containing "positive". -/
def biomarkerRecordedPositive (bms : List (String × String)) (marker : String) : Bool :=
  bms.any (fun kv => lcEq kv.1 marker && lcIncludes kv.2 "positive")

/-- The three core breast-cancer biomarker keys. -/
def coreMarkers : List String := ["HER2", "ER", "PR"]

/-- The TNBC contradiction error text for a given marker. -/
def tnbcContradictionError (m : String) : String :=
  "Contradiction: triple-negative diagnosis with " ++ m ++ " recorded positive"

/-- Modelled from the spec: the missing `validatePatientProfile`
(§4.2 Profile Validator).  Every rule is evaluated (no short-circuit);
`isValid` is exactly "no errors"; warnings never affect `isValid`. -/
def validatePatientProfile (p : PatientProfile) : ValidationResult :=
  let ageErrors :=
    if p.age < 18 || p.age > 120 then
      ["Age " ++ toString p.age ++ " outside adult-oncology plausibility range 18-120"]
    else []
  let stageErrors :=
    match p.stage with
    | none => []
    | some s =>
        if validStage s then []
        else ["Invalid cancer stage: " ++ s ++ ". Must be I, II, III, or IV"]
  let ecogErrors :=
    match p.performanceStatus with
    | none => []
    | some s =>
        match ecogNum s with
        | some n => if n > 5 then ["ECOG score out of range 0-5: " ++ s] else []
        | none => []
  let tnbcErrors :=
    if p.conditions.any isTNBCCondition then
      (coreMarkers.filter (biomarkerRecordedPositive p.biomarkers)).map tnbcContradictionError
    else []
  let stage0Errors :=
    match p.stage with
    | none => []
    | some s =>
        if strIncludes s "0"
            && (p.conditions.any (fun c => lcIncludes c "metasta") || lcIncludes s "metasta") then
          ["Stage 0 (in-situ) disease cannot be metastatic"]
        else []
  let errors := ageErrors ++ stageErrors ++ ecogErrors ++ tnbcErrors ++ stage0Errors
  let missingDataWarnings :=
    if p.conditions.any (fun c => lcIncludes c "cancer")
        && p.stage.isNone
        && coreMarkers.all (fun m => !(p.biomarkers.any (fun kv => lcEq kv.1 m))) then
      ["No stage and no core biomarkers (HER2, ER, PR) extracted - reduced matching precision"]
    else []
  let emptyConditionsWarnings :=
    if p.conditions.isEmpty then ["No conditions extracted"] else []
  { isValid := errors.isEmpty
    errors := errors
    warnings := missingDataWarnings ++ emptyConditionsWarnings }

/-! ## Guardrail engine (spec-modelled, §4.5)

`applyMedicalGuardrails` also lives in the missing `src/ai/validation.ts`.
Its caller, the current `assessTrial`, destructures the result as
`{shouldOverride, overrideScore, flags, reasoning}`; the behavior is
modelled from the spec's algorithm: re-derive hard-exclusion facts from
the profile and the trial's exclusion criteria by deterministic keyword
matching, and treat any fact the model's own `exclusionFlags` did not
already capture as a correction. -/

/-- Result shape destructured by the `assessTrial` call site. -/
structure GuardrailResult where
  shouldOverride : Bool
  overrideScore : Option Int
  flags : List String
  reasoning : String
deriving DecidableEq, Repr

/-- Modelled from the spec: the "fixed low ceiling" of the guardrail
override — the data-model invariant requires the overridden `matchScore`
to be capped at ≤ 25. -/
def GUARDRAIL_SCORE_CAP : Int := 25

/-- Patient's recorded status for a biomarker key:
`some true` = positive, `some false` = negative, `none` = not recorded
or neither. -/
def patientMarkerStatus (p : PatientProfile) (marker : String) : Option Bool :=
  match p.biomarkers.find? (fun kv => lcEq kv.1 marker) with
  | none => none
  | some kv =>
      if lcIncludes kv.2 "positive" then some true
      else if lcIncludes kv.2 "negative" then some false
      else none

/-- A criterion "mentions" a marker with a given status when it contains
`marker-status` or `marker status` (case-insensitive). -/
def mentionsStatus (c marker status : String) : Bool :=
  lcIncludes c (marker ++ "-" ++ status) || lcIncludes c (marker ++ " " ++ status)

/-- The ECOG ceiling mentioned by a criterion in the `"ECOG 0-k"` form,
if any. -/
def ecogCeiling (c : String) : Option Nat :=
  (List.range 6).find? (fun k => lcIncludes c ("ecog 0-" ++ toString k))

/-- Patient's recorded ECOG value, if the canonical "ECOG n" form. -/
def patientEcog (p : PatientProfile) : Option Nat :=
  p.performanceStatus.bind ecogNum

/-- Modelled from the spec: the hard-exclusion facts the guardrail
re-derives from one exclusion criterion — a biomarker status mentioned
by the criterion that contradicts the patient's recorded biomarker, or a
performance-status ceiling violated by the patient's recorded ECOG
value. -/
def criterionHardExclusions (p : PatientProfile) (c : String) : List String :=
  let biomarkerFlags := coreMarkers.flatMap (fun m =>
    match patientMarkerStatus p m with
    | some true =>
        if mentionsStatus c m "negative" then
          ["Hard exclusion: patient " ++ m ++ " positive status conflicts with criterion: " ++ c]
        else []
    | some false =>
        if mentionsStatus c m "positive" then
          ["Hard exclusion: patient " ++ m ++ " negative status conflicts with criterion: " ++ c]
        else []
    | none => [])
  let ecogFlags :=
    match patientEcog p, ecogCeiling c with
    | some n, some k =>
        if n > k then
          ["Hard exclusion: patient ECOG " ++ toString n ++ " exceeds ceiling in criterion: " ++ c]
        else []
    | _, _ => []
  biomarkerFlags ++ ecogFlags

/-- All hard-exclusion findings for a patient against a trial, paired
with the violated criterion text. -/
def hardExclusionFindings (p : PatientProfile) (t : MockTrial) : List (String × String) :=
  t.exclusionCriteria.flatMap (fun c => (criterionHardExclusions p c).map (fun f => (c, f)))

/-- A finding for criterion `c` is already captured by the model when one
of the model's own exclusion flags mentions the criterion text. -/
def capturedByModel (modelFlags : List String) (c : String) : Bool :=
  modelFlags.any (fun fl => lcIncludes fl c)

/-- Prefix of the synthesized override explanation. -/
def guardrailReasonPrefix : String := "Hard exclusion criterion violated: "

/-- Modelled from the spec: the missing `applyMedicalGuardrails`
(§4.5 Guardrail Engine).  If any hard-exclusion finding was not already
captured by the model's `exclusionFlags`, override: cap the score at the
fixed low ceiling (never increasing the model's proposed score),
emit the newly-found flags, and synthesize an explanation naming the
violated criterion.  If every finding was already flagged, merge the
flags without overriding.  Otherwise pass through. -/
def applyMedicalGuardrails (p : PatientProfile) (t : MockTrial) (r : MatchResult) :
    GuardrailResult :=
  let findings := hardExclusionFindings p t
  let newFindings := findings.filter (fun f => !capturedByModel r.exclusionFlags f.1)
  match newFindings with
  | f :: fs =>
      { shouldOverride := true
        overrideScore := some (min r.matchScore GUARDRAIL_SCORE_CAP)
        flags := (f :: fs).map (·.2)
        reasoning := guardrailReasonPrefix ++ f.1 }
  | [] =>
      { shouldOverride := false
        overrideScore := none
        flags := findings.map (·.2)
        reasoning := "" }

/-! ## `assessTrial` (from the current `src/ai/execute.ts`)

The model call itself is an external effect; its outcome is the
`Except String (Option MatchResult)` argument. -/

/-- The fixed low-confidence fallback `MatchResult` returned whenever the
assessment cannot be parsed or the call throws (source literal). -/
def assessFailureResult : MatchResult :=
  { matchScore := 0
    confidenceLevel := .low
    inclusionMatches := []
    exclusionFlags := ["Unable to assess criteria due to processing error"]
    uncertainFactors := ["All criteria require manual review"]
    explanation := "Assessment failed. Please review trial criteria manually."
    questionsToAsk := ["Verify all eligibility criteria with trial coordinator"] }

/-- Post-parse core of `assessTrial`: apply the guardrails to the parsed
model result, overriding when they fired, merging flags when they only
confirmed the model's own flags (source lines 573-606). -/
def assessTrialCore (patient : PatientProfile) (trial : MockTrial)
    (parsed : Option MatchResult) : MatchResult :=
  match parsed with
  | some r =>
      let g := applyMedicalGuardrails patient trial r
      if g.shouldOverride then
        { matchScore := g.overrideScore.getD 0
          confidenceLevel := .high
          inclusionMatches := r.inclusionMatches
          exclusionFlags := r.exclusionFlags ++ g.flags
          uncertainFactors := r.uncertainFactors
          explanation := g.reasoning
          questionsToAsk := r.questionsToAsk }
      else if g.flags.isEmpty then r
      else { r with exclusionFlags := r.exclusionFlags ++ g.flags }
  | none => assessFailureResult

/-- `assessTrial`: the catch-all handler returns the same fixed failure
result, so the function is total over every upstream outcome. -/
def assessTrialModel (patient : PatientProfile) (trial : MockTrial) :
    Except String (Option MatchResult) → MatchResult
  | .ok p => assessTrialCore patient trial p
  | .error _ => assessFailureResult

/-! ## `extractPatient` (from `src/ai/execute.ts`) -/

/-- The fixed empty-but-well-typed profile returned when extraction fails
unrecoverably (source literal, present identically in both the parse
fallback and the catch handler). -/
def emptyProfile : PatientProfile :=
  { age := 0
    gender := .unknown
    conditions := []
    medications := []
    allergies := []
    biomarkers := []
    stage := none
    priorTreatments := []
    performanceStatus := none
    labValues := [] }

/-- `extractPatient` with the console diagnostics made explicit: the
returned profile is paired with the list of logged messages.  On a
parsed result the profile is sanitized, validated, and returned; the
validation outcome is only logged.  On an unparseable result or a thrown
call the fixed empty profile is returned. -/
def extractPatientWithLog (upstream : Except String (Option PatientProfile))
    (freeText : String) : PatientProfile × List String :=
  match upstream with
  | .ok (some parsed) =>
      let sanitized := sanitizePatientProfile parsed freeText
      let validation := validatePatientProfile sanitized
      (sanitized, validation.errors ++ validation.warnings)
  | .ok none => (emptyProfile, ["Failed to parse patient profile, returning fallback"])
  | .error e => (emptyProfile, ["extractPatient failed: " ++ e])

/-- The profile component of `extractPatient` (what the caller receives). -/
def extractPatientModel (upstream : Except String (Option PatientProfile))
    (freeText : String) : PatientProfile :=
  (extractPatientWithLog upstream freeText).1

/-! ## Fallback Provider (from the legacy `src/ai/execute.ts`, lines 334-395)

The source is a function returning a fresh array literal each call: no
randomness, no state.  The `cancerType` field postdates this literal;
all three fallback trials are breast-cancer trials. -/

/-- The hardcoded fallback trial batch (source literal). -/
def getFallbackTrials : List MockTrial :=
  [ { nctId := "NCT05123456"
      title := "Study of Trastuzumab Deruxtecan in HER2+ Breast Cancer After Prior Therapy"
      phase := "Phase 3"
      briefSummary := "Evaluates trastuzumab deruxtecan in patients with HER2-positive breast cancer who progressed on prior anti-HER2 therapy. Primary endpoint is progression-free survival."
      inclusionCriteria :=
        [ "Age 18 years or older"
        , "HER2-positive breast cancer (IHC 3+ or FISH+)"
        , "Stage III or IV disease"
        , "Prior trastuzumab allowed and progression documented"
        , "ECOG performance status 0-2" ]
      exclusionCriteria :=
        [ "Active brain metastases requiring immediate treatment"
        , "LVEF <50%"
        , "Uncontrolled intercurrent illness" ]
      matchType := .perfect
      matchScore := 92
      cancerType := "breast" }
  , { nctId := "NCT05234567"
      title := "First-Line Tucatinib Plus Trastuzumab in Treatment-Naive HER2+ Breast Cancer"
      phase := "Phase 2"
      briefSummary := "Investigates tucatinib combination therapy in treatment-naive HER2-positive breast cancer patients. Requires no prior systemic anti-HER2 therapy."
      inclusionCriteria :=
        [ "Age 18-75 years"
        , "HER2-positive breast cancer"
        , "Stage II-IV disease"
        , "No prior systemic therapy for breast cancer"
        , "ECOG performance status 0-1" ]
      exclusionCriteria :=
        [ "Prior anti-HER2 therapy (trastuzumab, pertuzumab, etc.)"
        , "Prior chemotherapy for breast cancer"
        , "Cardiac dysfunction" ]
      matchType := .excluded
      matchScore := 20
      cancerType := "breast" }
  , { nctId := "NCT05345678"
      title := "Neratinib Maintenance Therapy in High-Risk HER2+ Breast Cancer"
      phase := "Phase 3"
      briefSummary := "Studies neratinib as maintenance therapy after standard treatment in high-risk HER2-positive breast cancer. Requires excellent performance status."
      inclusionCriteria :=
        [ "Age 18-70 years"
        , "HER2-positive breast cancer"
        , "Stage III disease"
        , "Completed prior trastuzumab-based therapy"
        , "ECOG performance status 0 (fully active)" ]
      exclusionCriteria :=
        [ "Metastatic disease"
        , "Severe diarrhea or GI disorders"
        , "Inadequate organ function" ]
      matchType := .uncertain
      matchScore := 62
      cancerType := "breast" } ]

/-! ## Trial sanitization and validation (spec-modelled, §4.3 and §4.4) -/

/-- A blank string (empty after trimming). -/
def isBlank (s : String) : Bool := trimStr s == ""

/-- Modelled from the spec: phase normalization of the missing
`sanitizeMockTrials` — "phase 1" / "Phase I" / "1" variants map to the
canonical enum, unrecognized input defaults to "Phase 2". -/
def normalizePhase (s : String) : String :=
  if lcEq s "phase 1" || lcEq s "phase i" || lcEq s "1" then "Phase 1"
  else if lcEq s "phase 2" || lcEq s "phase ii" || lcEq s "2" then "Phase 2"
  else if lcEq s "phase 3" || lcEq s "phase iii" || lcEq s "3" then "Phase 3"
  else "Phase 2"

/-- Modelled from the spec: the missing `sanitizeMockTrials`
(§4.3 Trial Normalizer) — slice to the first 3 records (truncate, never
pad), replace malformed NCT identifiers with freshly generated ones
(the generator is the `freshIds` argument, making the source's
randomness explicit), normalize phase, clamp `matchScore` to [0,100],
and drop blank criteria strings without padding the shortfall.
The source also defaults an invalid `matchType` string to "uncertain";
in this typed embedding `matchType` is already the enum. -/
def sanitizeMockTrials (freshIds : Nat → String) (ts : List MockTrial) : List MockTrial :=
  (ts.take 3).enum.map (fun it =>
    { it.2 with
      nctId := if validNctId it.2.nctId then it.2.nctId else freshIds it.1
      phase := normalizePhase it.2.phase
      matchScore := max 0 (min 100 it.2.matchScore)
      inclusionCriteria := it.2.inclusionCriteria.filter (fun c => !isBlank c)
      exclusionCriteria := it.2.exclusionCriteria.filter (fun c => !isBlank c) })

/-- Modelled from the spec: the missing `validateMockTrials`
(§4.4 Trial Validator).  Batch count, identifier grammar, required
fields, and criteria minima are blocking errors; score/matchType
misalignment and a skewed matchType distribution are warnings. -/
def validateMockTrials (ts : List MockTrial) : ValidationResult :=
  let countErrors :=
    if ts.length == 3 then []
    else ["Expected exactly 3 trials, got " ++ toString ts.length]
  let perTrialErrors := ts.enum.flatMap (fun it =>
    let tag := "Trial " ++ toString (it.1 + 1) ++ ": "
    (if validNctId it.2.nctId then []
     else [tag ++ "Invalid NCT ID format: " ++ it.2.nctId])
    ++ (if isBlank it.2.title then [tag ++ "missing title"] else [])
    ++ (if isBlank it.2.phase then [tag ++ "missing phase"] else [])
    ++ (if isBlank it.2.briefSummary then [tag ++ "missing summary"] else [])
    ++ (if it.2.inclusionCriteria.length < 3 then
          [tag ++ "fewer than 3 inclusion criteria"] else [])
    ++ (if it.2.exclusionCriteria.length < 2 then
          [tag ++ "fewer than 2 exclusion criteria"] else []))
  let scoreWarnings := ts.enum.flatMap (fun it =>
    if it.2.matchType == .perfect && it.2.matchScore < 85 then
      ["Trial " ++ toString (it.1 + 1) ++ ": perfect match has low score"]
    else [])
  let distributionWarnings :=
    if ts.any (·.matchType == .perfect)
        && ts.any (·.matchType == .excluded)
        && ts.any (·.matchType == .uncertain) then []
    else ["Batch does not contain one of each matchType"]
  let errors := countErrors ++ perTrialErrors
  { isValid := errors.isEmpty
    errors := errors
    warnings := scoreWarnings ++ distributionWarnings }

/-! ## Trial database filter (from `src/data/clinicalTrials.ts`)

The static JSON corpus becomes the `db` argument; the in-place
`Math.random` shuffle becomes the `shuffle` function argument. -/

/-- Biomarker status extraction (source `extractBiomarkerStatus`):
find the first biomarker key containing the marker (case-insensitive),
then classify its value. -/
inductive BioStatus
  | positive
  | negative
  | unknown
deriving DecidableEq, Repr

/-- Source `extractBiomarkerStatus` from `src/data/clinicalTrials.ts`. -/
def extractBiomarkerStatus (biomarkers : List (String × String)) (marker : String) :
    BioStatus :=
  match biomarkers.find? (fun kv => lcIncludes kv.1 marker) with
  | none => .unknown
  | some kv =>
      let v := toLowerStr kv.2
      if strIncludes v "positive" || strIncludes v "+" || v == "3+" || v == "2+" then
        .positive
      else if strIncludes v "negative" || strIncludes v "-" || v == "0" || v == "1+" then
        .negative
      else .unknown

/-- Source `detectCancerType` from `src/data/clinicalTrials.ts`. -/
def detectCancerType (p : PatientProfile) : String :=
  let conditions := String.intercalate " " (p.conditions.map toLowerStr)
  if strIncludes conditions "breast" then "breast"
  else if strIncludes conditions "lung" || strIncludes conditions "nsclc"
      || strIncludes conditions "sclc" then "lung"
  else if strIncludes conditions "colorectal" || strIncludes conditions "colon"
      || strIncludes conditions "rectal" then "colorectal"
  else if strIncludes conditions "prostate" then "prostate"
  else "other"

/-- Source `getTrialsByCancerType`. -/
def getTrialsByCancerType (db : List MockTrial) (cancerType : String) : List MockTrial :=
  db.filter (fun t => t.cancerType == cancerType)

/-- The searchable text of a trial used by the HER2 pre-filter
(title + summary + inclusion criteria, lower-cased). -/
def trialText (t : MockTrial) : String :=
  toLowerStr (t.title ++ " " ++ t.briefSummary ++ " "
    ++ String.intercalate " " t.inclusionCriteria)

/-- The relevant-trial list of `getTrialsForPatient` before the shuffle
and the `slice(0, min(8, length))` at the end. -/
def relevantTrialsFor (db : List MockTrial) (p : PatientProfile) : List MockTrial :=
  let cancerType := detectCancerType p
  let byType := getTrialsByCancerType db cancerType
  let base := if byType.isEmpty then db else byType
  match extractBiomarkerStatus p.biomarkers "HER2" with
  | .positive =>
      let pos := base.filter (fun t =>
        strIncludes (trialText t) "her2+"
          || strIncludes (trialText t) "her2-positive"
          || strIncludes (trialText t) "her2 positive")
      if pos.isEmpty then base else pos
  | .negative =>
      let neg := base.filter (fun t =>
        strIncludes (trialText t) "her2-"
          || strIncludes (trialText t) "her2-negative"
          || strIncludes (trialText t) "her2 negative"
          || strIncludes (trialText t) "triple negative"
          || strIncludes (trialText t) "tnbc"
          || strIncludes (trialText t) "her2-low")
      if neg.isEmpty then base else neg
  | .unknown => base

/-- Source `getTrialsForPatient`: filter by cancer type, fall back to
the whole corpus if empty, pre-filter by HER2 status, shuffle, and
return up to 8 trials (`slice(0, Math.min(8, length))`). -/
def getTrialsForPatient (db : List MockTrial) (shuffle : List MockTrial → List MockTrial)
    (p : PatientProfile) : List MockTrial :=
  let shuffled := shuffle (relevantTrialsFor db p)
  shuffled.take (min 8 shuffled.length)

/-- Source `getRandomTrials`: shuffle the whole corpus and take `count`. -/
def getRandomTrials (db : List MockTrial) (shuffle : List MockTrial → List MockTrial)
    (count : Nat) : List MockTrial :=
  (shuffle db).take count

/-! ## `generateTrials` — current version (from the current
`src/ai/execute.ts`, lines 639-674) -/

/-- Current `generateTrials`: load the relevant trials for the patient,
validate the first 3 (the validation outcome is logged but does not
change the control flow), and return the relevant trials; the
random-trial fallback is taken only when the body throws (`ok = false`
models the catch path). -/
def generateTrialsModel (db : List MockTrial) (shuffle : List MockTrial → List MockTrial)
    (ok : Bool) (p : PatientProfile) : List MockTrial :=
  if ok then
    let relevantTrials := getTrialsForPatient db shuffle p
    let _validation := validateMockTrials (relevantTrials.take 3)
    relevantTrials
  else getRandomTrials db shuffle 8

/-! ## `generateTrials` — legacy version (from the legacy
`src/ai/execute.ts`, lines 256-329) -/

/-- Legacy `generateTrials` post-parse core: sanitize the parsed batch,
validate it, and discard it in favor of the hardcoded fallback when
validation reports a blocking error; unparseable output and thrown
calls also yield the fallback. -/
def generateTrialsLegacyModel (freshIds : Nat → String) :
    Except String (Option (List MockTrial)) → List MockTrial
  | .ok (some parsed) =>
      let sanitized := sanitizeMockTrials freshIds parsed
      let validation := validateMockTrials sanitized
      if validation.isValid then sanitized else getFallbackTrials
  | .ok none => getFallbackTrials
  | .error _ => getFallbackTrials

/-! ## POST /api/match sort-and-rank step (from `src/app/api/match/route.ts`)

`Promise.all` gathers the per-trial assessments; the handler then sorts
by `result.matchScore` descending (`(a, b) => b.result.matchScore -
a.result.matchScore`) and assigns `rank = index + 1`.  The input list
order stands for whatever order the concurrent assessments produced. -/

/-- One entry of the `matches` array built by the handler. -/
structure RankedMatch where
  trial : MockTrial
  result : MatchResult
  rank : Nat
deriving DecidableEq, Repr

/-- Assign ranks `i, i+1, ...` down a list (the handler's
`forEach((match, index) => match.rank = index + 1)` starting at `i`). -/
def assignRanks (i : Nat) : List RankedMatch → List RankedMatch
  | [] => []
  | m :: ms => { m with rank := i } :: assignRanks (i + 1) ms

/-- The descending-score comparator of the handler's `sort`. -/
def scoreDesc (a b : RankedMatch) : Bool :=
  b.result.matchScore ≤ a.result.matchScore

/-- Steps 4-5 of the POST handler: sort by score descending, then assign
ranks 1, 2, 3, ... in that order. -/
def sortAndRank (ms : List RankedMatch) : List RankedMatch :=
  assignRanks 1 (ms.mergeSort scoreDesc)

/-! ## `deriveStatus` (from `src/components/MainDashboard.tsx`) -/

/-- UI status bucket derived for each trial row.  `match` is a Lean
keyword, so the source's `'match'` literal is rendered `matched`. -/
inductive TrialStatus
  | matched
  | uncertain
  | exclude
deriving DecidableEq, Repr

/-- The hard-exclusion flag scan of `deriveStatus`: some flag contains
"mismatch", "hard exclusion", or "excludes" (case-insensitive). -/
def hasHardExclusionFlag (flags : List String) : Bool :=
  flags.any (fun flag =>
    lcIncludes flag "mismatch"
      || lcIncludes flag "hard exclusion"
      || lcIncludes flag "excludes")

/-- Source `deriveStatus` from `MainDashboard.tsx`: hard-exclusion flags
force `exclude`; otherwise the score thresholds 70 and 40 pick the
bucket. -/
def deriveStatus (result : MatchResult) : TrialStatus :=
  if hasHardExclusionFlag result.exclusionFlags then .exclude
  else if result.matchScore ≥ 70 then .matched
  else if result.matchScore ≥ 40 then .uncertain
  else .exclude

/-! ## Concrete inputs used by witnesses and counterexamples -/

/-- A profile carrying a triple-negative diagnosis together with a
positive HER2 biomarker (the spec's contradiction-detection test case). -/
def tnbcContradictionProfile : PatientProfile :=
  { age := 52
    gender := .female
    conditions := ["triple negative breast cancer"]
    medications := []
    allergies := []
    biomarkers := [("HER2", "positive")]
    stage := none
    priorTreatments := []
    performanceStatus := none
    labValues := [] }

/-- The spec's end-to-end scenario A patient: Stage IV, HER2 positive. -/
def scenarioAPatient : PatientProfile :=
  { age := 52
    gender := .female
    conditions := ["breast cancer"]
    medications := []
    allergies := []
    biomarkers := [("HER2", "positive")]
    stage := some "Stage IV"
    priorTreatments := []
    performanceStatus := some "ECOG 1"
    labValues := [] }

/-- A trial whose exclusion criteria require HER2-negative disease. -/
def scenarioATrial : MockTrial :=
  { nctId := "NCT01234567"
    title := "HER2-Negative Therapy Study"
    phase := "Phase 2"
    briefSummary := "Studies therapy in HER2-negative breast cancer."
    inclusionCriteria := ["Age 18 or older", "Breast cancer", "ECOG 0-2"]
    exclusionCriteria := ["HER2-negative disease required", "Pregnancy"]
    matchType := .uncertain
    matchScore := 50
    cancerType := "breast" }

/-- A model result that proposes a high score and misses the exclusion. -/
def scenarioAParsed : MatchResult :=
  { matchScore := 80
    confidenceLevel := .medium
    inclusionMatches := ["Age 18 or older"]
    exclusionFlags := []
    uncertainFactors := []
    explanation := "Looks like a good fit."
    questionsToAsk := [] }

/-- A minimal well-formed breast-cancer trial used as database content. -/
def dbBreastTrial : MockTrial :=
  { nctId := "NCT00000001"
    title := "Breast Trial A"
    phase := "Phase 2"
    briefSummary := "Summary"
    inclusionCriteria := ["a", "b", "c"]
    exclusionCriteria := ["x", "y"]
    matchType := .uncertain
    matchScore := 50
    cancerType := "breast" }

/-- A trial with a malformed NCT identifier, violating the validator. -/
def badIdTrial : MockTrial :=
  { dbBreastTrial with nctId := "NCT1", title := "Breast Trial B" }

/-- A breast-cancer patient with no biomarkers recorded. -/
def plainBreastPatient : PatientProfile :=
  { age := 50
    gender := .female
    conditions := ["breast cancer"]
    medications := []
    allergies := []
    biomarkers := []
    stage := none
    priorTreatments := []
    performanceStatus := none
    labValues := [] }

/-- An assessment result carrying a "mismatch" exclusion flag. -/
def mismatchFlaggedResult : MatchResult :=
  { scenarioAParsed with
    matchScore := 85
    exclusionFlags := ["HER2 status mismatch"] }

/-- An assessment result with no flags and a high score. -/
def cleanHighScoreResult : MatchResult :=
  { scenarioAParsed with matchScore := 85, exclusionFlags := [] }

/-! ## Helper lemmas -/

/-- Every hard-exclusion finding names one of the trial's exclusion
criteria. -/
theorem mem_hardExclusionFindings_criterion {p : PatientProfile} {t : MockTrial}
    {f : String × String} (h : f ∈ hardExclusionFindings p t) :
    f.1 ∈ t.exclusionCriteria := by
  unfold hardExclusionFindings at h
  rw [List.mem_flatMap] at h
  obtain ⟨c, hc, hf⟩ := h
  rw [List.mem_map] at hf
  obtain ⟨s, -, rfl⟩ := hf
  exact hc

/-! ## Claim theorems -/

/-- C6.  For every upstream outcome — a thrown call (`.error`, covering
timeouts and transport errors) or unparseable model output even after
the retry (`.ok none`) — `extractPatient` returns the fixed
empty-but-well-typed profile (age 0, gender unknown, empty lists/maps,
null stage and performance status) and `assessTrial` returns the fixed
well-typed failure result with `matchScore` 0 and `confidenceLevel`
"low".  Both model functions are total, so no exception reaches the
caller for any input. -/
theorem extract_assess_never_raise (e : String) (ft : String)
    (p : PatientProfile) (t : MockTrial) :
    extractPatientModel (.error e) ft = emptyProfile
      ∧ extractPatientModel (.ok none) ft = emptyProfile
      ∧ emptyProfile.age = 0
      ∧ emptyProfile.gender = .unknown
      ∧ emptyProfile.conditions = []
      ∧ emptyProfile.biomarkers = []
      ∧ emptyProfile.stage = none
      ∧ emptyProfile.performanceStatus = none
      ∧ assessTrialModel p t (.error e) = assessFailureResult
      ∧ assessTrialModel p t (.ok none) = assessFailureResult
      ∧ assessFailureResult.matchScore = 0
      ∧ assessFailureResult.confidenceLevel = .low :=
  ⟨rfl, rfl, rfl, rfl, rfl, rfl, rfl, rfl, rfl, rfl, rfl, rfl⟩

/-- C7.  `getFallbackTrials` is a pure constant — no randomness, no
state — so two consecutive calls return structurally identical data:
the same 3 trial records, with the same fixed NCT identifiers and
exactly one trial of each matchType (perfect, excluded, uncertain). -/
theorem getFallbackTrials_fixed :
    getFallbackTrials = getFallbackTrials
      ∧ getFallbackTrials.length = 3
      ∧ getFallbackTrials.map (·.nctId)
          = ["NCT05123456", "NCT05234567", "NCT05345678"]
      ∧ getFallbackTrials.map (·.matchType) = [.perfect, .excluded, .uncertain]
      ∧ (getFallbackTrials.map (·.matchType)).count .perfect = 1
      ∧ (getFallbackTrials.map (·.matchType)).count .excluded = 1
      ∧ (getFallbackTrials.map (·.matchType)).count .uncertain = 1 := by
  refine ⟨rfl, rfl, ?_, ?_, ?_, ?_, ?_⟩ <;> decide

/-- C8.  For every parseable model output `p`, the profile `extractPatient`
returns is exactly `sanitizePatientProfile p` — the validator's errors
and warnings go only to the diagnostic log, never into the returned
profile, and a profile is returned whether or not validation passed. -/
theorem extractPatient_returns_sanitized (p : PatientProfile) (ft : String) :
    extractPatientModel (.ok (some p)) ft = sanitizePatientProfile p ft
      ∧ (extractPatientWithLog (.ok (some p)) ft).1 = sanitizePatientProfile p ft
      ∧ (extractPatientWithLog (.ok (some p)) ft).2
          = (validatePatientProfile (sanitizePatientProfile p ft)).errors
            ++ (validatePatientProfile (sanitizePatientProfile p ft)).warnings :=
  ⟨rfl, rfl, rfl⟩

/-- C10.  `deriveStatus` classifies a result as `exclude` whenever some
exclusion flag contains "mismatch", "hard exclusion", or "excludes"
(case-insensitively), regardless of score; otherwise the status is
`matched` iff `matchScore ≥ 70`, `uncertain` iff `40 ≤ matchScore < 70`,
and `exclude` iff `matchScore < 40`. -/
theorem deriveStatus_spec (r : MatchResult) :
    (hasHardExclusionFlag r.exclusionFlags = true → deriveStatus r = .exclude)
      ∧ (hasHardExclusionFlag r.exclusionFlags = false →
          ((deriveStatus r = .matched) ↔ 70 ≤ r.matchScore)
            ∧ ((deriveStatus r = .uncertain) ↔ 40 ≤ r.matchScore ∧ r.matchScore < 70)
            ∧ ((deriveStatus r = .exclude) ↔ r.matchScore < 40)) := by
  constructor
  · intro h
    simp [deriveStatus, h]
  · intro h
    unfold deriveStatus
    rw [h]
    simp only [Bool.false_eq_true, if_false]
    split_ifs with h70 h40 <;>
      refine ⟨⟨fun hc => ?_, fun hs => ?_⟩, ⟨fun hc => ?_, fun hs => ?_⟩,
        ⟨fun hc => ?_, fun hs => ?_⟩⟩ <;>
        first
          | rfl
          | omega
          | (cases hc)

/-- Witness for C10 at concrete inputs: a "mismatch" flag forces
`exclude` even at score 85, and with no flags a score of 85 is
`matched`. -/
theorem deriveStatus_spec_witness :
    deriveStatus mismatchFlaggedResult = .exclude
      ∧ deriveStatus cleanHighScoreResult = .matched :=
  ⟨(deriveStatus_spec mismatchFlaggedResult).1 (by decide),
   (((deriveStatus_spec cleanHighScoreResult).2 (by decide)).1).mpr (by decide)⟩

/-- C1.  Whenever the guardrail detects a hard exclusion the model's own
`exclusionFlags` did not already capture (`shouldOverride`), the
`MatchResult` returned by `assessTrial` has `matchScore` capped at 25,
`confidenceLevel` "high", the newly-found guardrail flags appended to
the model's `exclusionFlags`, and a synthesized explanation naming the
violated exclusion criterion. -/
theorem assessTrial_guardrail_override (p : PatientProfile) (t : MockTrial)
    (r : MatchResult)
    (h : (applyMedicalGuardrails p t r).shouldOverride = true) :
    (assessTrialModel p t (.ok (some r))).matchScore ≤ 25
      ∧ (assessTrialModel p t (.ok (some r))).confidenceLevel = .high
      ∧ (assessTrialModel p t (.ok (some r))).exclusionFlags
          = r.exclusionFlags ++ (applyMedicalGuardrails p t r).flags
      ∧ ∃ c ∈ t.exclusionCriteria,
          (assessTrialModel p t (.ok (some r))).explanation
            = guardrailReasonPrefix ++ c := by
  cases hnf : (hardExclusionFindings p t).filter
      (fun f => !capturedByModel r.exclusionFlags f.1) with
  | nil =>
      exfalso
      have hfalse : (applyMedicalGuardrails p t r).shouldOverride = false := by
        simp only [applyMedicalGuardrails]
        rw [hnf]
      rw [h] at hfalse
      cases hfalse
  | cons f fs =>
      have hg : applyMedicalGuardrails p t r =
          { shouldOverride := true
            overrideScore := some (min r.matchScore GUARDRAIL_SCORE_CAP)
            flags := (f :: fs).map (·.2)
            reasoning := guardrailReasonPrefix ++ f.1 } := by
        simp only [applyMedicalGuardrails]
        rw [hnf]
      have hres : assessTrialModel p t (.ok (some r)) =
          { matchScore := min r.matchScore GUARDRAIL_SCORE_CAP
            confidenceLevel := .high
            inclusionMatches := r.inclusionMatches
            exclusionFlags := r.exclusionFlags ++ (f :: fs).map (·.2)
            uncertainFactors := r.uncertainFactors
            explanation := guardrailReasonPrefix ++ f.1
            questionsToAsk := r.questionsToAsk } := by
        show assessTrialCore p t (some r) = _
        simp only [assessTrialCore]
        rw [hg]
        rfl
      have hfmem : f ∈ hardExclusionFindings p t := by
        have hmem : f ∈ (hardExclusionFindings p t).filter
            (fun f => !capturedByModel r.exclusionFlags f.1) := by
          rw [hnf]
          exact List.mem_cons_self f fs
        exact (List.mem_filter.mp hmem).1
      refine ⟨?_, ?_, ?_, ⟨f.1, mem_hardExclusionFindings_criterion hfmem, ?_⟩⟩
      · rw [hres]
        exact min_le_right _ _
      · rw [hres]
      · rw [hres, hg]
      · rw [hres]

/-- Witness for C1: the spec's scenario A (HER2-positive patient, trial
excluding on HER2-negative mention, model result with an empty flag
list) triggers the override, and the returned score is ≤ 25. -/
theorem assessTrial_guardrail_override_witness :
    (assessTrialModel scenarioAPatient scenarioATrial
      (.ok (some scenarioAParsed))).matchScore ≤ 25 :=
  (assessTrial_guardrail_override scenarioAPatient scenarioATrial scenarioAParsed
    (by decide)).1

/-- C2.  When the guardrail newly detects a hard exclusion, the final
`matchScore` returned by `assessTrial` never exceeds the model's
proposed `matchScore`, and the final `confidenceLevel` is "high". -/
theorem assessTrial_guardrail_monotone (p : PatientProfile) (t : MockTrial)
    (r : MatchResult)
    (h : (applyMedicalGuardrails p t r).shouldOverride = true) :
    (assessTrialModel p t (.ok (some r))).matchScore ≤ r.matchScore
      ∧ (assessTrialModel p t (.ok (some r))).confidenceLevel = .high := by
  cases hnf : (hardExclusionFindings p t).filter
      (fun f => !capturedByModel r.exclusionFlags f.1) with
  | nil =>
      exfalso
      have hfalse : (applyMedicalGuardrails p t r).shouldOverride = false := by
        simp only [applyMedicalGuardrails]
        rw [hnf]
      rw [h] at hfalse
      cases hfalse
  | cons f fs =>
      have hg : applyMedicalGuardrails p t r =
          { shouldOverride := true
            overrideScore := some (min r.matchScore GUARDRAIL_SCORE_CAP)
            flags := (f :: fs).map (·.2)
            reasoning := guardrailReasonPrefix ++ f.1 } := by
        simp only [applyMedicalGuardrails]
        rw [hnf]
      have hres : assessTrialModel p t (.ok (some r)) =
          { matchScore := min r.matchScore GUARDRAIL_SCORE_CAP
            confidenceLevel := .high
            inclusionMatches := r.inclusionMatches
            exclusionFlags := r.exclusionFlags ++ (f :: fs).map (·.2)
            uncertainFactors := r.uncertainFactors
            explanation := guardrailReasonPrefix ++ f.1
            questionsToAsk := r.questionsToAsk } := by
        show assessTrialCore p t (some r) = _
        simp only [assessTrialCore]
        rw [hg]
        rfl
      constructor
      · rw [hres]
        exact min_le_left _ _
      · rw [hres]

/-- Witness for C2: scenario A again — the overridden score (25) does
not exceed the model's proposed score (80), and confidence is high. -/
theorem assessTrial_guardrail_monotone_witness :
    (assessTrialModel scenarioAPatient scenarioATrial
        (.ok (some scenarioAParsed))).matchScore ≤ scenarioAParsed.matchScore
      ∧ (assessTrialModel scenarioAPatient scenarioATrial
          (.ok (some scenarioAParsed))).confidenceLevel = .high :=
  assessTrial_guardrail_monotone scenarioAPatient scenarioATrial scenarioAParsed
    (by decide)

/-- C3.  For every profile whose conditions carry a triple-negative
designation ("triple negative" or "TNBC" keyword) and whose biomarkers
record any of the HER2/ER/PR keys as positive, `validatePatientProfile`
returns `isValid = false` with an error mentioning both the
contradictory biomarker and the contradiction. -/
theorem validateProfile_tnbc_contradiction (p : PatientProfile) (m : String)
    (hc : p.conditions.any isTNBCCondition = true)
    (hm : m ∈ coreMarkers)
    (hpos : biomarkerRecordedPositive p.biomarkers m = true) :
    (validatePatientProfile p).isValid = false
      ∧ ∃ e ∈ (validatePatientProfile p).errors,
          strIncludes e m = true ∧ strIncludes e "Contradiction" = true := by
  have hmem : tnbcContradictionError m ∈ (validatePatientProfile p).errors := by
    simp only [validatePatientProfile, hc, if_true]
    rw [List.mem_append, List.mem_append]
    refine Or.inl (Or.inr ?_)
    rw [List.mem_map]
    exact ⟨m, List.mem_filter.mpr ⟨hm, hpos⟩, rfl⟩
  constructor
  · have hne : (validatePatientProfile p).errors ≠ [] :=
      List.ne_nil_of_mem hmem
    have hval : (validatePatientProfile p).isValid
        = (validatePatientProfile p).errors.isEmpty := by
      simp only [validatePatientProfile]
    rw [hval]
    cases herr : (validatePatientProfile p).errors with
    | nil => exact absurd herr hne
    | cons a as => rfl
  · refine ⟨tnbcContradictionError m, hmem, ?_, ?_⟩
    · exact strIncludes_of_eq_append _ _
        "Contradiction: triple-negative diagnosis with " " recorded positive"
        (by simp [tnbcContradictionError])
    · exact strIncludes_of_eq_append _ _
        "" (": triple-negative diagnosis with " ++ m ++ " recorded positive")
        (by simp [tnbcContradictionError])

/-- Witness for C3: the spec's contradiction test case — conditions
`["triple negative breast cancer"]` with `HER2 = "positive"` — is
rejected with an error mentioning "HER2" and the contradiction. -/
theorem validateProfile_tnbc_contradiction_witness :
    (validatePatientProfile tnbcContradictionProfile).isValid = false
      ∧ ∃ e ∈ (validatePatientProfile tnbcContradictionProfile).errors,
          strIncludes e "HER2" = true ∧ strIncludes e "Contradiction" = true :=
  validateProfile_tnbc_contradiction tnbcContradictionProfile "HER2"
    (by decide) (by decide) (by decide)

/-- C4 counterexample.  The batch returned by the current
`generateTrials` does not have length 3 for every input: on a one-trial
corpus and a breast-cancer patient it returns exactly that one trial. -/
theorem generateTrials_count_counterexample :
    (generateTrialsModel [dbBreastTrial] id true plainBreastPatient).length = 1
      ∧ (1 : Nat) ≠ 3 :=
  ⟨by decide, by decide⟩

/-- C4 (amended).  The current `generateTrials` performs no
normalization to a 3-record batch: it returns the relevant-trial list
cut to at most 8 entries — length `min 8 (relevant count)` on the
normal path, and `min 8 (corpus size)` on the exception fallback —
for any length-preserving shuffle. -/
theorem generateTrials_count (db : List MockTrial)
    (shuffle : List MockTrial → List MockTrial)
    (hs : ∀ l, (shuffle l).length = l.length) (ok : Bool) (p : PatientProfile) :
    (generateTrialsModel db shuffle ok p).length
      = if ok then min 8 (relevantTrialsFor db p).length
        else min 8 db.length := by
  cases ok with
  | true =>
      simp only [generateTrialsModel, if_true, getTrialsForPatient]
      rw [List.length_take, hs]
      omega
  | false =>
      simp only [generateTrialsModel, Bool.false_eq_true, if_false, getRandomTrials]
      rw [List.length_take, hs]

/-- Witness for C4's amended theorem: instantiated on the one-trial
corpus with the identity shuffle. -/
theorem generateTrials_count_witness :
    (generateTrialsModel [dbBreastTrial] id true plainBreastPatient).length
      = if true then min 8 (relevantTrialsFor [dbBreastTrial] plainBreastPatient).length
        else min 8 ([dbBreastTrial] : List MockTrial).length :=
  generateTrials_count [dbBreastTrial] id (fun _ => rfl) true plainBreastPatient

/-- C5 counterexample.  In the current `generateTrials`, a batch on
which `validateMockTrials` reports a blocking error is NOT discarded:
with a corpus holding one trial with a malformed NCT identifier, the
validation of the (first-3) batch fails, yet the function returns that
batch itself, not the Fallback Provider's trials. -/
theorem generateTrials_validation_not_blocking_counterexample :
    (validateMockTrials
        ((generateTrialsModel [badIdTrial] id true plainBreastPatient).take 3)).isValid
        = false
      ∧ generateTrialsModel [badIdTrial] id true plainBreastPatient = [badIdTrial]
      ∧ [badIdTrial] ≠ getFallbackTrials :=
  ⟨by decide, by decide, by decide⟩

/-- C5 (amended).  Only the legacy OpenAI `generateTrials` discards a
batch with a blocking `validateMockTrials` error in favor of
`getFallbackTrials`; the current version logs the errors and returns
the batch unchanged. -/
theorem generateTrialsLegacy_fallback_on_invalid (freshIds : Nat → String)
    (ts : List MockTrial)
    (h : (validateMockTrials (sanitizeMockTrials freshIds ts)).isValid = false) :
    generateTrialsLegacyModel freshIds (.ok (some ts)) = getFallbackTrials := by
  simp [generateTrialsLegacyModel, h]

/-- Witness for C5's amended theorem: an empty parsed batch fails
validation (count ≠ 3) and the legacy path substitutes the fallback. -/
theorem generateTrialsLegacy_fallback_witness :
    generateTrialsLegacyModel (fun _ => "NCT00000000") (.ok (some []))
      = getFallbackTrials :=
  generateTrialsLegacy_fallback_on_invalid (fun _ => "NCT00000000") [] (by decide)

/-! Rank-assignment lemmas for the POST handler model. -/

theorem assignRanks_map_score (i : Nat) (l : List RankedMatch) :
    (assignRanks i l).map (fun m => m.result.matchScore)
      = l.map (fun m => m.result.matchScore) := by
  induction l generalizing i with
  | nil => rfl
  | cons m rest ih => simp [assignRanks, ih]

theorem assignRanks_map_rank (i : Nat) (l : List RankedMatch) :
    (assignRanks i l).map (·.rank) = List.range' i l.length := by
  induction l generalizing i with
  | nil => rfl
  | cons m rest ih => simp [assignRanks, ih, List.range'_succ]

theorem assignRanks_map_payload (i : Nat) (l : List RankedMatch) :
    (assignRanks i l).map (fun m => (m.trial, m.result))
      = l.map (fun m => (m.trial, m.result)) := by
  induction l generalizing i with
  | nil => rfl
  | cons m rest ih => simp [assignRanks, ih]

/-- C9.  Whatever order the concurrent per-trial assessments completed
in (the input list order), the `matches` array returned by the POST
/api/match handler is sorted in descending order of `result.matchScore`,
its `rank` fields are 1, 2, 3, ... in that sorted order, and it is a
permutation of the assessments that came in (ranks aside). -/
theorem postMatch_sorted_and_ranked (ms : List RankedMatch) :
    (sortAndRank ms).Pairwise
        (fun a b => b.result.matchScore ≤ a.result.matchScore)
      ∧ (sortAndRank ms).map (·.rank) = List.range' 1 ms.length
      ∧ ((sortAndRank ms).map (fun m => (m.trial, m.result))).Perm
          (ms.map (fun m => (m.trial, m.result))) := by
  have htrans : ∀ a b c : RankedMatch,
      scoreDesc a b = true → scoreDesc b c = true → scoreDesc a c = true := by
    intro a b c hab hbc
    simp only [scoreDesc, decide_eq_true_eq] at hab hbc ⊢
    omega
  have htotal : ∀ a b : RankedMatch, (scoreDesc a b || scoreDesc b a) = true := by
    intro a b
    simp only [scoreDesc, Bool.or_eq_true, decide_eq_true_eq]
    omega
  have hsorted := List.sorted_mergeSort htrans htotal ms
  refine ⟨?_, ?_, ?_⟩
  · have h1 : List.Pairwise (fun x y : Int => y ≤ x)
        ((ms.mergeSort scoreDesc).map (fun m => m.result.matchScore)) := by
      rw [List.pairwise_map]
      refine hsorted.imp ?_
      intro a b hab
      simpa [scoreDesc, decide_eq_true_eq] using hab
    have h2 : (sortAndRank ms).map (fun m => m.result.matchScore)
        = (ms.mergeSort scoreDesc).map (fun m => m.result.matchScore) :=
      assignRanks_map_score 1 _
    have h3 : List.Pairwise (fun x y : Int => y ≤ x)
        ((sortAndRank ms).map (fun m => m.result.matchScore)) := h2 ▸ h1
    rw [List.pairwise_map] at h3
    exact h3
  · show (assignRanks 1 (ms.mergeSort scoreDesc)).map (·.rank) = _
    rw [assignRanks_map_rank]
    congr 1
    exact (List.mergeSort_perm ms scoreDesc).length_eq
  · show ((assignRanks 1 (ms.mergeSort scoreDesc)).map
        (fun m => (m.trial, m.result))).Perm _
    rw [assignRanks_map_payload]
    exact (List.mergeSort_perm ms scoreDesc).map _

end ClinMatch
